import Mathlib

/-!
# Verification of the Skin Tone & Color Matching Engine

Shallow embedding of `src/lib/skin-tone-analysis.ts` and the color-name
resolver `getProductColorHex` from `src/app/swipe/page.tsx`, together with
theorems settling the specified properties.

Conventions of the embedding:
* TypeScript string-literal union values (`'warm'`, `'spring'`, ...) are
  plain Lean `String`s, exactly as in the source.
* Pixel channels are natural numbers; arithmetic that can go negative in
  JavaScript (e.g. `(r + g) - b`) is carried out over `ℤ`.
* JavaScript's real-valued division and `Math.sqrt` are embedded over
  `ℚ` / `ℝ`; `Math.round x` is `⌊x + 1/2⌋`, which is Mathlib's `round`.
-/

/-- One hex digit of the character class `[a-f\d]` with the `i` flag,
i.e. `[a-fA-F0-9]`, from the regex in `hexToRgb`. -/
def isHexDigit (c : Char) : Bool :=
  ('a' ≤ c && c ≤ 'f') || ('A' ≤ c && c ≤ 'F') || ('0' ≤ c && c ≤ '9')

/-- Numeric value of a hex digit (`parseInt(_, 16)` on one digit). -/
def hexVal (c : Char) : Nat :=
  if 'a' ≤ c && c ≤ 'f' then c.toNat - 'a'.toNat + 10
  else if 'A' ≤ c && c ≤ 'F' then c.toNat - 'A'.toNat + 10
  else c.toNat - '0'.toNat

/-- `hexToRgb` from `src/lib/skin-tone-analysis.ts`: parse a string against
the anchored regex `/^#?([a-f\d]{2})([a-f\d]{2})([a-f\d]{2})$/i`; on a match
return the three channel values, otherwise `null` (here `none`).
The optional leading `#` is consumed first; the remainder must be exactly
six hex digits. -/
def hexToRgb (hex : String) : Option (Nat × Nat × Nat) :=
  let cs := match hex.data with
    | '#' :: rest => rest
    | cs => cs
  match cs with
  | [c1, c2, c3, c4, c5, c6] =>
    if isHexDigit c1 && isHexDigit c2 && isHexDigit c3 &&
       isHexDigit c4 && isHexDigit c5 && isHexDigit c6 then
      some (16 * hexVal c1 + hexVal c2,
            16 * hexVal c3 + hexVal c4,
            16 * hexVal c5 + hexVal c6)
    else none
  | _ => none

/-- `colorDistance` from `src/lib/skin-tone-analysis.ts`: Euclidean distance
in RGB space between two hex color strings; if either string fails
`hexToRgb`, the fixed value `100` is returned. -/
noncomputable def colorDistance (color1 color2 : String) : ℝ :=
  match hexToRgb color1, hexToRgb color2 with
  | some (r1, g1, b1), some (r2, g2, b2) =>
    Real.sqrt (((r1 : ℝ) - r2) ^ 2 + ((g1 : ℝ) - g2) ^ 2 + ((b1 : ℝ) - b2) ^ 2)
  | _, _ => 100

/-- Decidable form of the comparison `colorDistance color1 color2 < 150`
used by `isColorMatch`: since `Real.sqrt d < 150 ↔ d < 150²` and the
malformed-input value satisfies `100 < 150`, the comparison is equivalent
to an integer comparison of the squared distance with `22500`
(lemma `colorDistanceLt150_iff`). -/
def colorDistanceLt150 (color1 color2 : String) : Bool :=
  match hexToRgb color1, hexToRgb color2 with
  | some (r1, g1, b1), some (r2, g2, b2) =>
    decide (((r1 : ℤ) - r2) ^ 2 + ((g1 : ℤ) - g2) ^ 2 + ((b1 : ℤ) - b2) ^ 2 < 22500)
  | _, _ => true

/-- `SkinToneAnalysis` interface from `src/lib/skin-tone-analysis.ts`. -/
structure SkinToneAnalysis where
  skinHex : String
  undertone : String
  season : String
  recommendedColors : List String
  avoidColors : List String

/-- `isColorMatch` from `src/lib/skin-tone-analysis.ts`: the garment color
matches iff some recommended color is at `colorDistance` below `150`; the
comparison is realized by its decidable equivalent `colorDistanceLt150`. -/
def isColorMatch (clothingColorHex : String) (skinAnalysis : SkinToneAnalysis) : Bool :=
  skinAnalysis.recommendedColors.any fun recommended =>
    colorDistanceLt150 clothingColorHex recommended

/-- The Boolean `colorDistanceLt150` agrees with the real comparison
`colorDistance _ _ < 150`. -/
theorem colorDistanceLt150_iff (c1 c2 : String) :
    colorDistanceLt150 c1 c2 = true ↔ colorDistance c1 c2 < 150 := by
  unfold colorDistanceLt150 colorDistance
  rcases h1 : hexToRgb c1 with _ | ⟨r1, g1, b1⟩ <;>
    rcases h2 : hexToRgb c2 with _ | ⟨r2, g2, b2⟩
  · simpa using by norm_num
  · simpa using by norm_num
  · simpa using by norm_num
  · have hcast : ((r1 : ℝ) - r2) ^ 2 + ((g1 : ℝ) - g2) ^ 2 + ((b1 : ℝ) - b2) ^ 2 =
        ((((r1 : ℤ) - r2) ^ 2 + ((g1 : ℤ) - g2) ^ 2 + ((b1 : ℤ) - b2) ^ 2 : ℤ) : ℝ) := by
      push_cast
      ring
    have h150 : (0 : ℝ) < 150 := by norm_num
    simp only [decide_eq_true_eq]
    rw [Real.sqrt_lt' h150, hcast]
    have h22500 : ((150 : ℝ) ^ 2) = ((22500 : ℤ) : ℝ) := by norm_num
    rw [h22500]
    exact Iff.symm Int.cast_lt

/-- `determineUndertone` from `src/lib/skin-tone-analysis.ts`: classify an
RGB triple as `'warm'`, `'cool'` or `'neutral'` by comparing
`yellowness = (r + g) - b` against `pinkness = (r + b) - g` with a ±20 band.
Channels are integers since the differences can be negative. -/
def determineUndertone (r g b : ℤ) : String :=
  let yellowness := (r + g) - b
  let pinkness := (r + b) - g
  if yellowness > pinkness + 20 then "warm"
  else if pinkness > yellowness + 20 then "cool"
  else "neutral"

/-- `determineSeason` from `src/lib/skin-tone-analysis.ts`: brightness is
the real-valued mean `(r + g + b) / 3` (embedded over `ℚ`); `'warm'`
undertone selects spring/autumn by lightness, anything else (including
`'neutral'`) selects summer/winter. -/
def determineSeason (r g b : ℤ) (undertone : String) : String :=
  let brightness : ℚ := ((r : ℚ) + (g : ℚ) + (b : ℚ)) / 3
  let isLight := brightness > 140
  if undertone = "warm" then
    if isLight then "spring" else "autumn"
  else
    if isLight then "summer" else "winter"

/-- `isSkinLike` from `src/lib/skin-tone-analysis.ts`: the per-pixel skin
heuristic over non-negative channel values. `Math.abs(r - g)` is the
absolute value of the (possibly negative) integer difference. -/
def isSkinLike (r g b : ℕ) : Bool :=
  let mx := max r (max g b)
  let mn := min r (min g b)
  decide (r > 95) && decide (g > 40) && decide (b > 20) &&
    decide (mx - mn > 15) &&
    decide (((r : ℤ) - (g : ℤ)).natAbs > 15) &&
    decide (r > g) && decide (r > b)

/-- `getAverageColor` from `src/lib/skin-tone-analysis.ts`: arithmetic mean
of the channels over the pixel list, each channel rounded with
`Math.round` (i.e. `round` over `ℚ`); the empty list falls back to the
fixed medium skin tone `(194, 154, 108)`. -/
def getAverageColor (pixels : List (ℕ × ℕ × ℕ)) : ℕ × ℕ × ℕ :=
  match pixels with
  | [] => (194, 154, 108)
  | _ =>
    let sum := pixels.foldl
      (fun acc p => (acc.1 + p.1, acc.2.1 + p.2.1, acc.2.2 + p.2.2))
      ((0, 0, 0) : ℕ × ℕ × ℕ)
    let n : ℚ := (pixels.length : ℚ)
    ((round ((sum.1 : ℚ) / n)).toNat,
     (round ((sum.2.1 : ℚ) / n)).toNat,
     (round ((sum.2.2 : ℚ) / n)).toNat)

/-- The pixel-filtering stage of `extractSkinPixels` from
`src/lib/skin-tone-analysis.ts`: of the pixels scanned (the center crop of
the working image, an indexing detail outside this embedding), exactly
those satisfying `isSkinLike` are kept, in scan order. -/
def extractSkinPixelsFrom (pixels : List (ℕ × ℕ × ℕ)) : List (ℕ × ℕ × ℕ) :=
  pixels.filter fun p => isSkinLike p.1 p.2.1 p.2.2

/-- The `spring.recommended` palette from `getColorRecommendations` in
`src/lib/skin-tone-analysis.ts`. -/
def springRecommended : List String :=
  ["#FF6B6B", "#4ECDC4", "#45B7D1", "#96CEB4", "#FECA57", "#FF9FF3", "#54A0FF",
   "#FF0000", "#FFA500", "#FFFF00", "#FFD700", "#FF7F50", "#FF69B4", "#00FF00",
   "#32CD32", "#ADFF2F", "#00CED1", "#1E90FF", "#FF1493", "#FF6347", "#FFA502",
   "#F39C12", "#E74C3C", "#E67E22", "#2ECC71", "#3498DB", "#9B59B6", "#F1C40F",
   "#FF8C00", "#DC143C", "#00BFFF", "#FF4500", "#DA70D6", "#20B2AA", "#87CEEB",
   "#FFB6C1", "#98FB98", "#DDA0DD", "#F0E68C", "#FA8072", "#40E0D0", "#EE82EE"]

/-- The `summer.recommended` palette from `getColorRecommendations` in
`src/lib/skin-tone-analysis.ts`. -/
def summerRecommended : List String :=
  ["#A8E6CF", "#88D8C0", "#FFD3A5", "#FD99A9", "#C7CEEA", "#B8B8D4",
   "#E6E6FA", "#B0C4DE", "#87CEEB", "#F0F8FF", "#E0FFFF", "#F5FFFA",
   "#FFF8DC", "#FFFACD", "#FFEFD5", "#F5F5DC", "#FAF0E6", "#FDF5E6",
   "#FFFFF0", "#F0FFF0", "#F5FFFA", "#FFFAFA", "#F8F8FF", "#F0F8FF",
   "#ADD8E6", "#B0E0E6", "#87CEFA", "#00BFFF", "#1E90FF", "#6495ED",
   "#4169E1", "#0000CD", "#00008B", "#000080", "#191970", "#8A2BE2",
   "#9400D3", "#9932CC", "#BA55D3", "#DA70D6", "#DDA0DD", "#EE82EE"]

/-- The `autumn.recommended` palette from `getColorRecommendations` in
`src/lib/skin-tone-analysis.ts`. -/
def autumnRecommended : List String :=
  ["#D63031", "#E17055", "#FDCB6E", "#E84393", "#6C5CE7", "#A29BFE",
   "#8B4513", "#A0522D", "#CD853F", "#D2691E", "#B22222", "#DC143C",
   "#800000", "#8B0000", "#FF6347", "#FF4500", "#FF8C00", "#FFA500",
   "#FFD700", "#FFFF00", "#9ACD32", "#32CD32", "#228B22", "#006400",
   "#556B2F", "#808000", "#6B8E23", "#BDB76B", "#F0E68C", "#EEE8AA",
   "#DAA520", "#B8860B", "#CD853F", "#D2B48C", "#F4A460", "#DEB887",
   "#BC8F8F", "#F5DEB3", "#FFDAB9", "#FFE4B5", "#FFEFD5", "#FFF8DC"]

/-- The `winter.recommended` palette from `getColorRecommendations` in
`src/lib/skin-tone-analysis.ts`. -/
def winterRecommended : List String :=
  ["#2D3436", "#636E72", "#0984E3", "#6C5CE7", "#E84393", "#FDCB6E",
   "#000000", "#2F3640", "#2C2C54", "#40407A", "#706FD3", "#3742FA",
   "#2ED573", "#7BED9F", "#70A1FF", "#5352ED", "#FF6B6B", "#FF7675",
   "#FDCB6E", "#E17055", "#00D2D3", "#00CEC9", "#6C5CE7", "#A29BFE",
   "#FD79A8", "#FDCB6E", "#E84393", "#00B894", "#74B9FF", "#0984E3",
   "#FFFFFF", "#F8F9FA", "#E9ECEF", "#DEE2E6", "#CED4DA", "#ADB5BD",
   "#495057", "#343A40", "#212529", "#FF0000", "#0000FF", "#800080"]

/-- The string-keyed members every plain JavaScript object literal
inherits from `Object.prototype`. Bracket lookup `obj[name]` on a literal
with no own property `name` still finds these on the prototype chain, and
each of them is a function or an object — truthy — so an
`obj[name] || default` fallback is not taken for them. -/
def objectPrototypeMembers : List String :=
  ["constructor", "hasOwnProperty", "isPrototypeOf", "propertyIsEnumerable",
   "toLocaleString", "toString", "valueOf", "__defineGetter__",
   "__defineSetter__", "__lookupGetter__", "__lookupSetter__", "__proto__"]

/-- Runtime value of `colorMap[season] || colorMap.autumn` in
`getColorRecommendations`: one of the palette records of the table, or —
when `season` collides with an `Object.prototype` member name — that
truthy inherited member, which is not a palette record, so destructuring
`{ recommended, avoid }` from it yields `undefined` fields. -/
inductive SeasonPalette where
  | palette (recommended : List String) (avoid : List String)
  | protoMember (name : String)
deriving DecidableEq

/-- `getColorRecommendations` from `src/lib/skin-tone-analysis.ts`: the
hardcoded per-season palette table; every `avoid` list of the table is
empty in this revision. `colorMap[season] || colorMap.autumn` falls back
to the autumn entry for a season string that is neither an own key of the
table nor inherited from `Object.prototype`; for an inherited member name
(e.g. `"constructor"`) the lookup is truthy and that member itself is
returned. The `undertone` argument is accepted but unused, as in the
source. -/
def getColorRecommendations (season : String) (undertone : String) : SeasonPalette :=
  match season with
  | "spring" => SeasonPalette.palette springRecommended []
  | "summer" => SeasonPalette.palette summerRecommended []
  | "autumn" => SeasonPalette.palette autumnRecommended []
  | "winter" => SeasonPalette.palette winterRecommended []
  | _ =>
    if objectPrototypeMembers.contains season then SeasonPalette.protoMember season
    else SeasonPalette.palette autumnRecommended []

/-- Result record of `analyzeSkinCharacteristics` (the `SkinToneAnalysis`
fields other than `skinHex`). The palette fields are `Option`s because
destructuring `{ recommended, avoid }` from a non-palette value yields
`undefined`; the classifier always lands in the palette case, as proven
below, since `determineSeason` only emits the four season keys. -/
structure SkinCharacteristics where
  undertone : String
  season : String
  recommendedColors : Option (List String)
  avoidColors : Option (List String)

/-- `analyzeSkinCharacteristics` from `src/lib/skin-tone-analysis.ts`:
derive undertone, season and the palettes from the averaged color. -/
def analyzeSkinCharacteristics (r g b : ℤ) : SkinCharacteristics :=
  let undertone := determineUndertone r g b
  let season := determineSeason r g b undertone
  match getColorRecommendations season undertone with
  | SeasonPalette.palette recommended avoid =>
    { undertone := undertone
      season := season
      recommendedColors := some recommended
      avoidColors := some avoid }
  | SeasonPalette.protoMember _ =>
    { undertone := undertone
      season := season
      recommendedColors := none
      avoidColors := none }

/-- The `colorMap` object literal inside `getProductColorHex` in
`src/app/swipe/page.tsx`, as an ordered association list (keys in source
order; JavaScript object lookup on these string keys matches first-entry
lookup since the keys are distinct). -/
def productColorMap : List (String × String) :=
  [("black", "#000000"),
   ("white", "#FFFFFF"),
   ("red", "#FF0000"),
   ("blue", "#0000FF"),
   ("green", "#008000"),
   ("yellow", "#FFFF00"),
   ("pink", "#FFC0CB"),
   ("purple", "#800080"),
   ("orange", "#FFA500"),
   ("brown", "#A52A2A"),
   ("gray", "#808080"),
   ("grey", "#808080"),
   ("navy", "#000080"),
   ("beige", "#F5F5DC"),
   ("cream", "#FFFDD0"),
   ("tan", "#D2B48C"),
   ("gold", "#FFD700"),
   ("silver", "#C0C0C0"),
   ("burgundy", "#800020"),
   ("maroon", "#800000"),
   ("olive", "#808000"),
   ("teal", "#008080"),
   ("turquoise", "#40E0D0"),
   ("coral", "#FF7F50"),
   ("salmon", "#FA8072"),
   ("khaki", "#F0E68C"),
   ("mint", "#98FB98"),
   ("lavender", "#E6E6FA"),
   ("ivory", "#FFFFF0"),
   ("crimson", "#DC143C"),
   ("scarlet", "#FF2400"),
   ("rose", "#FF66CC"),
   ("fuchsia", "#FF00FF"),
   ("magenta", "#FF00FF"),
   ("violet", "#8A2BE2"),
   ("indigo", "#4B0082"),
   ("cyan", "#00FFFF"),
   ("aqua", "#00FFFF"),
   ("lime", "#00FF00"),
   ("forest", "#228B22"),
   ("emerald", "#50C878"),
   ("jade", "#00A86B"),
   ("chartreuse", "#7FFF00"),
   ("amber", "#FFBF00"),
   ("bronze", "#CD7F32"),
   ("copper", "#B87333"),
   ("rust", "#B7410E"),
   ("mahogany", "#C04000"),
   ("chestnut", "#954535"),
   ("coffee", "#6F4E37"),
   ("chocolate", "#D2691E"),
   ("camel", "#C19A6B"),
   ("sand", "#C2B280"),
   ("wheat", "#F5DEB3"),
   ("pearl", "#F0EAD6"),
   ("champagne", "#F7E7CE"),
   ("nude", "#E3BC9A"),
   ("blush", "#DE5D83"),
   ("mauve", "#E0B0FF"),
   ("plum", "#DDA0DD"),
   ("lilac", "#C8A2C8"),
   ("periwinkle", "#CCCCFF"),
   ("slate", "#708090"),
   ("charcoal", "#36454F"),
   ("steel", "#4682B4"),
   ("cobalt", "#0047AB"),
   ("sapphire", "#0F52BA"),
   ("royal", "#4169E1"),
   ("midnight", "#191970"),
   ("denim", "#1560BD"),
   ("powder", "#B0E0E6"),
   ("sky", "#87CEEB"),
   ("ice", "#F0F8FF"),
   ("mint green", "#98FB98"),
   ("sea green", "#2E8B57"),
   ("pine", "#01796F"),
   ("sage", "#9CAF88"),
   ("moss", "#8A9A5B"),
   ("hunter", "#355E3B")]

/-- `toLowerCase()` on a string, restricted to its ASCII behavior:
`Char.toLower` maps `A`–`Z` to `a`–`z` and leaves every other character
unchanged. JavaScript additionally lowercases non-ASCII cased letters
(e.g. U+212A KELVIN SIGN becomes `k`), which this embedding does not
cover; statements about the resolver therefore carry an ASCII
hypothesis, under which the two functions agree exactly. -/
def jsToLower (s : String) : String :=
  String.mk (s.data.map Char.toLower)

/-- A character of the ECMAScript `TrimString` set (WhiteSpace ∪
LineTerminator): TAB, LF, VT, FF, CR, SP, NBSP, the Unicode space
separators, LINE SEPARATOR, PARAGRAPH SEPARATOR and ZWNBSP. This is
exactly what JavaScript `trim()` removes. -/
def isJsWhitespace (c : Char) : Bool :=
  c.toNat = 0x09 || c.toNat = 0x0A || c.toNat = 0x0B || c.toNat = 0x0C ||
  c.toNat = 0x0D || c.toNat = 0x20 || c.toNat = 0xA0 || c.toNat = 0x1680 ||
  (0x2000 ≤ c.toNat && c.toNat ≤ 0x200A) || c.toNat = 0x2028 ||
  c.toNat = 0x2029 || c.toNat = 0x202F || c.toNat = 0x205F ||
  c.toNat = 0x3000 || c.toNat = 0xFEFF

/-- `trim()` on a string: drop leading and trailing `TrimString`
characters. -/
def jsTrim (s : String) : String :=
  String.mk (((s.data.dropWhile isJsWhitespace).reverse.dropWhile
    isJsWhitespace).reverse)

/-- The normalization `colorName.toLowerCase().trim()` performed by
`getProductColorHex`. -/
def normalizeColorName (colorName : String) : String :=
  jsTrim (jsToLower colorName)

/-- An ASCII-only character. -/
def isAsciiChar (c : Char) : Bool := c.toNat < 128

/-- A string of ASCII characters; on these, `jsToLower` and `jsTrim`
agree exactly with JavaScript `toLowerCase()` and `trim()`. -/
def isAsciiString (s : String) : Bool := s.data.all isAsciiChar

/-- Runtime value produced by the resolver: a hex string (an own entry of
the table, or the default), or the truthy member inherited from
`Object.prototype` when the looked-up name collides with one — in that
case the function does not return a string at all. -/
inductive JsValue where
  | str (s : String)
  | protoMember (name : String)
deriving DecidableEq

/-- `getProductColorHex` from `src/app/swipe/page.tsx`: normalize the
color name with `toLowerCase().trim()` and evaluate
`colorMap[normalizedColor] || '#6B46C1'`. An own entry of the static
table is returned; otherwise, a name inherited from `Object.prototype`
(e.g. `"constructor"`) is a truthy member and is returned as-is,
bypassing the default; every other name falls back to the default purple
`#6B46C1`. -/
def getProductColorHex (colorName : String) : JsValue :=
  let normalizedColor := normalizeColorName colorName
  match productColorMap.lookup normalizedColor with
  | some hex => JsValue.str hex
  | none =>
    if objectPrototypeMembers.contains normalizedColor then
      JsValue.protoMember normalizedColor
    else JsValue.str "#6B46C1"

/-- C2: for every garment hex string and every `SkinToneAnalysis`,
`isColorMatch` returns `true` iff at least one color of
`recommendedColors` is at `colorDistance` strictly below `150`; the
result does not depend on `avoidColors` in any way (no avoid-color
check). -/
theorem isColorMatch_iff_close_recommended (hex : String) (a : SkinToneAnalysis) :
    (isColorMatch hex a = true ↔
      ∃ rec ∈ a.recommendedColors, colorDistance hex rec < 150) ∧
    (∀ av : List String, isColorMatch hex { a with avoidColors := av } = isColorMatch hex a) := by
  constructor
  · rw [isColorMatch, List.any_eq_true]
    simp only [colorDistanceLt150_iff]
  · intro av
    rfl

/-- C1 (counterexample): the garment color string `"not-a-color"` fails the
6-hex-digit parse, yet `isColorMatch` returns `true` on a profile whose
`recommendedColors` is nonempty — malformed garment colors are not
rejected, contrary to the claim. -/
theorem isColorMatch_malformed_matches_cex :
    hexToRgb "not-a-color" = none ∧
    isColorMatch "not-a-color"
      ⟨"#C29A6C", "warm", "spring", ["#FF0000"], []⟩ = true := by
  constructor
  · decide
  · decide

/-- C1 (amended): for every garment color string failing the strict
6-hex-digit parse, `colorDistance` to any color is the fixed `100`, which
lies below the `150` threshold, so `isColorMatch` returns `true` exactly
when the profile's `recommendedColors` is nonempty (and in particular the
comparison always returns a boolean, never throwing). -/
theorem isColorMatch_malformed_iff_nonempty (g : String) (a : SkinToneAnalysis)
    (hg : hexToRgb g = none) :
    (isColorMatch g a = true ↔ a.recommendedColors ≠ []) ∧
    (∀ rec : String, colorDistance g rec = 100) := by
  have hdist : ∀ rec : String, colorDistanceLt150 g rec = true := by
    intro rec
    unfold colorDistanceLt150
    rcases h2 : hexToRgb rec with _ | ⟨r2, g2, b2⟩ <;> rw [hg]
  constructor
  · rw [isColorMatch, List.any_eq_true]
    constructor
    · rintro ⟨x, hx, -⟩ hnil
      rw [hnil] at hx
      exact absurd hx (List.not_mem_nil x)
    · intro hnil
      rcases hrec : a.recommendedColors with _ | ⟨x, xs⟩
      · exact absurd hrec hnil
      · exact ⟨x, List.mem_cons_self x xs, hdist x⟩
  · intro rec
    unfold colorDistance
    rcases h2 : hexToRgb rec with _ | ⟨r2, g2, b2⟩ <;> rw [hg]

/-- C1 (witness for the amended claim). -/
theorem isColorMatch_malformed_iff_nonempty_witness :
    isColorMatch "z@z" ⟨"#C29A6C", "cool", "winter", ["#0000FF"], []⟩ = true ∧
    colorDistance "z@z" "#0000FF" = 100 :=
  ⟨(isColorMatch_malformed_iff_nonempty "z@z"
      ⟨"#C29A6C", "cool", "winter", ["#0000FF"], []⟩ (by decide)).1.mpr (by decide),
   (isColorMatch_malformed_iff_nonempty "z@z"
      ⟨"#C29A6C", "cool", "winter", ["#0000FF"], []⟩ (by decide)).2 "#0000FF"⟩

/-- C6: whenever at least one of the two arguments fails the 6-hex-digit
parse, `colorDistance` returns exactly `100`. -/
theorem colorDistance_malformed_eq_100 (c1 c2 : String)
    (h : hexToRgb c1 = none ∨ hexToRgb c2 = none) :
    colorDistance c1 c2 = 100 := by
  unfold colorDistance
  rcases h1 : hexToRgb c1 with _ | ⟨r1, g1, b1⟩ <;>
    rcases h2 : hexToRgb c2 with _ | ⟨r2, g2, b2⟩
  · rfl
  · rfl
  · rfl
  · rw [h1, h2] at h
    rcases h with h | h <;> exact absurd h (by simp)

/-- C6 (witness): a malformed first argument against a valid second, a
valid first against a malformed second, and two malformed arguments. -/
theorem colorDistance_malformed_eq_100_witness :
    colorDistance "xyz" "#FF0000" = 100 ∧
    colorDistance "#FF0000" "12345" = 100 ∧
    colorDistance "xyz" "12345" = 100 :=
  ⟨colorDistance_malformed_eq_100 "xyz" "#FF0000" (Or.inl (by decide)),
   colorDistance_malformed_eq_100 "#FF0000" "12345" (Or.inr (by decide)),
   colorDistance_malformed_eq_100 "xyz" "12345" (Or.inl (by decide))⟩

/-- C8: `colorDistance` behaves like a metric on valid colors — it is `0`
from any successfully parsed color to itself, and it is symmetric on all
pairs of strings. -/
theorem colorDistance_metric (a b c : String) :
    ((hexToRgb c).isSome = true → colorDistance c c = 0) ∧
    colorDistance a b = colorDistance b a := by
  constructor
  · intro h
    obtain ⟨⟨r, g, bb⟩, hv⟩ := Option.isSome_iff_exists.mp h
    unfold colorDistance
    rw [hv]
    have hz : ((r : ℝ) - r) ^ 2 + ((g : ℝ) - g) ^ 2 + ((bb : ℝ) - bb) ^ 2 = 0 := by
      ring
    show Real.sqrt (((r : ℝ) - r) ^ 2 + ((g : ℝ) - g) ^ 2 + ((bb : ℝ) - bb) ^ 2) = 0
    rw [hz, Real.sqrt_zero]
  · unfold colorDistance
    rcases h1 : hexToRgb a with _ | ⟨r1, g1, b1⟩ <;>
      rcases h2 : hexToRgb b with _ | ⟨r2, g2, b2⟩
    · rfl
    · rfl
    · rfl
    · ring

/-- C8 (witness): identity at `#123456` and symmetry at a concrete pair. -/
theorem colorDistance_metric_witness :
    colorDistance "#123456" "#123456" = 0 ∧
    colorDistance "#FF0000" "#00FF00" = colorDistance "#00FF00" "#FF0000" :=
  ⟨(colorDistance_metric "#FF0000" "#00FF00" "#123456").1 (by decide),
   (colorDistance_metric "#FF0000" "#00FF00" "#123456").2⟩

/-- C3: on every RGB triple in `[0,255]³`, `determineUndertone` returns
`'warm'` exactly when `yellowness > pinkness + 20`, `'cool'` exactly when
`pinkness > yellowness + 20`, `'neutral'` exactly otherwise, and its
result is always one of these three strings. -/
theorem determineUndertone_trichotomy (r g b : ℤ)
    (hr : 0 ≤ r ∧ r ≤ 255) (hg : 0 ≤ g ∧ g ≤ 255) (hb : 0 ≤ b ∧ b ≤ 255) :
    (determineUndertone r g b = "warm" ↔ (r + g) - b > ((r + b) - g) + 20) ∧
    (determineUndertone r g b = "cool" ↔ (r + b) - g > ((r + g) - b) + 20) ∧
    (determineUndertone r g b = "neutral" ↔
      ¬((r + g) - b > ((r + b) - g) + 20) ∧ ¬((r + b) - g > ((r + g) - b) + 20)) ∧
    (determineUndertone r g b = "warm" ∨ determineUndertone r g b = "cool" ∨
      determineUndertone r g b = "neutral") := by
  have hdu : determineUndertone r g b =
      if (r + g) - b > ((r + b) - g) + 20 then "warm"
      else if (r + b) - g > ((r + g) - b) + 20 then "cool" else "neutral" := rfl
  rw [hdu]
  split_ifs with h1 h2 <;>
    refine ⟨?_, ?_, ?_, ?_⟩ <;>
    simp_all <;>
    omega

/-- C3 (witness): the triple `(200,150,100)` is classified `'warm'`. -/
theorem determineUndertone_trichotomy_witness :
    determineUndertone 200 150 100 = "warm" :=
  (determineUndertone_trichotomy 200 150 100
    (by decide) (by decide) (by decide)).1.mpr (by decide)

/-- C9: `determineUndertone` ignores the red channel — for channel values
in `[0,255]` the result is unchanged under any change of `r`, and it is
`'warm'` iff `g - b > 10`, `'cool'` iff `b - g > 10`, `'neutral'`
otherwise (since `yellowness - pinkness = 2 * (g - b)`). -/
theorem determineUndertone_red_independent (r1 r2 g b : ℤ)
    (hr1 : 0 ≤ r1 ∧ r1 ≤ 255) (hr2 : 0 ≤ r2 ∧ r2 ≤ 255)
    (hg : 0 ≤ g ∧ g ≤ 255) (hb : 0 ≤ b ∧ b ≤ 255) :
    determineUndertone r1 g b = determineUndertone r2 g b ∧
    (determineUndertone r1 g b = "warm" ↔ g - b > 10) ∧
    (determineUndertone r1 g b = "cool" ↔ b - g > 10) ∧
    (determineUndertone r1 g b = "neutral" ↔ ¬(g - b > 10) ∧ ¬(b - g > 10)) := by
  have key : ∀ r : ℤ,
      determineUndertone r g b =
        if g - b > 10 then "warm" else if b - g > 10 then "cool" else "neutral" := by
    intro r
    unfold determineUndertone
    have e1 : ((r + g) - b > ((r + b) - g) + 20) ↔ g - b > 10 := by omega
    have e2 : ((r + b) - g > ((r + g) - b) + 20) ↔ b - g > 10 := by omega
    simp only [e1, e2]
  rw [key r1, key r2]
  split_ifs with h1 h2 <;> refine ⟨rfl, ?_, ?_, ?_⟩ <;> simp_all <;> omega

/-- C9 (witness): changing the red channel from `10` to `250` leaves the
classification of `(g,b) = (150,100)` at `'warm'`. -/
theorem determineUndertone_red_independent_witness :
    determineUndertone 10 150 100 = determineUndertone 250 150 100 ∧
    determineUndertone 10 150 100 = "warm" :=
  ⟨(determineUndertone_red_independent 10 250 150 100
      (by decide) (by decide) (by decide) (by decide)).1,
   (determineUndertone_red_independent 10 250 150 100
      (by decide) (by decide) (by decide) (by decide)).2.1.mpr (by decide)⟩

/-- C4: on every RGB triple in `[0,255]³` and every undertone string,
`determineSeason` compares `brightness = (r+g+b)/3` with `140` and maps
warm+light to `'spring'`, warm+dark to `'autumn'`, light to `'summer'`
and dark to `'winter'` otherwise; `'neutral'` is treated exactly like
`'cool'`; the result is one of the four seasons and depends only on the
pair (undertone, brightness > 140). -/
theorem determineSeason_spec (r g b : ℤ)
    (hr : 0 ≤ r ∧ r ≤ 255) (hg : 0 ≤ g ∧ g ≤ 255) (hb : 0 ≤ b ∧ b ≤ 255)
    (undertone : String) :
    (undertone = "warm" → ((r : ℚ) + g + b) / 3 > 140 →
      determineSeason r g b undertone = "spring") ∧
    (undertone = "warm" → ¬(((r : ℚ) + g + b) / 3 > 140) →
      determineSeason r g b undertone = "autumn") ∧
    (undertone ≠ "warm" → ((r : ℚ) + g + b) / 3 > 140 →
      determineSeason r g b undertone = "summer") ∧
    (undertone ≠ "warm" → ¬(((r : ℚ) + g + b) / 3 > 140) →
      determineSeason r g b undertone = "winter") ∧
    determineSeason r g b "neutral" = determineSeason r g b "cool" ∧
    (determineSeason r g b undertone = "spring" ∨
      determineSeason r g b undertone = "summer" ∨
      determineSeason r g b undertone = "autumn" ∨
      determineSeason r g b undertone = "winter") ∧
    (∀ r' g' b' : ℤ,
      ((((r' : ℚ) + g' + b') / 3 > 140) ↔ (((r : ℚ) + g + b) / 3 > 140)) →
      determineSeason r' g' b' undertone = determineSeason r g b undertone) := by
  have hds : ∀ (x y z : ℤ) (u : String), determineSeason x y z u =
      if u = "warm" then
        (if ((x : ℚ) + y + z) / 3 > 140 then "spring" else "autumn")
      else
        (if ((x : ℚ) + y + z) / 3 > 140 then "summer" else "winter") :=
    fun _ _ _ _ => rfl
  simp only [hds]
  refine ⟨?_, ?_, ?_, ?_, ?_, ?_, ?_⟩
  · intro hu hl
    simp [hu, hl]
  · intro hu hl
    simp [hu, hl]
  · intro hu hl
    simp [hu, hl]
  · intro hu hl
    simp [hu, hl]
  · rw [if_neg (by decide : ¬("neutral" = "warm")), if_neg (by decide : ¬("cool" = "warm"))]
  · by_cases hu : undertone = "warm" <;>
      by_cases hl : ((r : ℚ) + g + b) / 3 > 140 <;>
      simp [hu, hl]
  · intro r' g' b' hiff
    by_cases hl : ((r : ℚ) + g + b) / 3 > 140
    · simp [hl, hiff.mpr hl]
    · have hl' : ¬(((r' : ℚ) + g' + b') / 3 > 140) := fun h => hl (hiff.mp h)
      simp [hl, hl']

/-- C4 (witness): `(220,180,140)` is light (brightness `180`), so `'warm'`
maps to `'spring'`; `(80,90,110)` is dark (brightness `93.3`), so
`'cool'` maps to `'winter'`. -/
theorem determineSeason_spec_witness :
    determineSeason 220 180 140 "warm" = "spring" ∧
    determineSeason 80 90 110 "cool" = "winter" :=
  ⟨(determineSeason_spec 220 180 140
      (by decide) (by decide) (by decide) "warm").1 rfl (by norm_num),
   (determineSeason_spec 80 90 110
      (by decide) (by decide) (by decide) "cool").2.2.2.1 (by decide) (by norm_num)⟩

/-- C5: when no scanned pixel satisfies the skin-like heuristic, the
filtering stage keeps nothing and the aggregation `getAverageColor`
returns exactly the default medium skin tone `(194,154,108)` instead of
failing. -/
theorem getAverageColor_default_on_no_skin (pixels : List (ℕ × ℕ × ℕ))
    (h : ∀ p ∈ pixels, isSkinLike p.1 p.2.1 p.2.2 = false) :
    getAverageColor (extractSkinPixelsFrom pixels) = (194, 154, 108) := by
  have hnil : extractSkinPixelsFrom pixels = [] := by
    rw [extractSkinPixelsFrom, List.filter_eq_nil_iff]
    intro p hp
    rw [h p hp]
    exact Bool.false_ne_true
  rw [hnil]
  rfl

/-- C5 (witness): a solid pure-blue image — every scanned pixel is
`(0,0,255)`, which fails the heuristic — yields the default. -/
theorem getAverageColor_default_on_no_skin_witness :
    getAverageColor (extractSkinPixelsFrom [(0, 0, 255), (0, 0, 255)]) = (194, 154, 108) :=
  getAverageColor_default_on_no_skin [(0, 0, 255), (0, 0, 255)] (by decide)

/-- `determineSeason` only ever emits the four season keys. -/
lemma determineSeason_eq_four (r g b : ℤ) (u : String) :
    determineSeason r g b u = "spring" ∨ determineSeason r g b u = "summer" ∨
    determineSeason r g b u = "autumn" ∨ determineSeason r g b u = "winter" := by
  unfold determineSeason
  by_cases hu : u = "warm" <;>
    by_cases hl : ((r : ℚ) + g + b) / 3 > 140 <;>
    simp [hu, hl]

/-- C10: in this revision every season's `avoid` list in the hardcoded
palette table is the empty list, so the classifier output always carries
`avoidColors = []` (destructured as `some []`), whatever the input RGB
triple — `determineSeason` only produces the four table keys, so the
lookup always lands on a table entry. -/
theorem avoidColors_always_empty :
    (∀ undertone : String,
      getColorRecommendations "spring" undertone =
        SeasonPalette.palette springRecommended [] ∧
      getColorRecommendations "summer" undertone =
        SeasonPalette.palette summerRecommended [] ∧
      getColorRecommendations "autumn" undertone =
        SeasonPalette.palette autumnRecommended [] ∧
      getColorRecommendations "winter" undertone =
        SeasonPalette.palette winterRecommended []) ∧
    (∀ r g b : ℤ, (analyzeSkinCharacteristics r g b).avoidColors = some []) := by
  constructor
  · intro undertone
    exact ⟨rfl, rfl, rfl, rfl⟩
  · intro r g b
    have h4 := determineSeason_eq_four r g b (determineUndertone r g b)
    unfold analyzeSkinCharacteristics
    rcases h4 with h | h | h | h <;> simp only [h] <;> rfl

/-- C7 (counterexample): the name `"constructor"` is absent from the
static table, yet the resolver does not return the default `#6B46C1` —
bracket lookup finds the truthy `Object.prototype.constructor` on the
prototype chain and the program returns that member (not a hex string),
refuting "every name not present in the static table resolves to the
fixed default". -/
theorem getProductColorHex_proto_cex :
    productColorMap.lookup (normalizeColorName "constructor") = none ∧
    getProductColorHex "constructor" = JsValue.protoMember "constructor" ∧
    getProductColorHex "constructor" ≠ JsValue.str "#6B46C1" := by
  refine ⟨by decide, by decide, by decide⟩

/-- C7 (amended): for ASCII color names (where the embedded
`toLowerCase()`/`trim()` agree exactly with JavaScript — JS additionally
lowercases non-ASCII letters such as U+212A): two names equal after
normalization resolve identically, `"burgundy"` resolves to `#800020`,
and a name whose normalization is absent from the static table resolves
to the default `#6B46C1` **unless** the normalization is the name of an
inherited `Object.prototype` member, in which case the lookup returns
that truthy member instead of a hex string — so the resolver is not
total as a name-to-hex-string function. -/
theorem getProductColorHex_spec (s t : String)
    (hs : isAsciiString s = true) (ht : isAsciiString t = true) :
    (normalizeColorName s = normalizeColorName t →
      getProductColorHex s = getProductColorHex t) ∧
    getProductColorHex "burgundy" = JsValue.str "#800020" ∧
    (productColorMap.lookup (normalizeColorName s) = none →
      objectPrototypeMembers.contains (normalizeColorName s) = false →
      getProductColorHex s = JsValue.str "#6B46C1") ∧
    (productColorMap.lookup (normalizeColorName s) = none →
      objectPrototypeMembers.contains (normalizeColorName s) = true →
      getProductColorHex s = JsValue.protoMember (normalizeColorName s)) := by
  refine ⟨?_, by decide, ?_, ?_⟩
  · intro h
    unfold getProductColorHex
    rw [h]
  · intro h hp
    simp only [getProductColorHex]
    rw [h, hp]
    rfl
  · intro h hp
    simp only [getProductColorHex]
    rw [h, hp]
    rfl

/-- C7 (witness): `"  BURGUNDY "` normalizes like `"burgundy"` and
resolves identically; the unknown name `"ultraviolet-mist"` falls back to
the default purple; the prototype-colliding name `"constructor"` resolves
to the inherited member. -/
theorem getProductColorHex_spec_witness :
    getProductColorHex "  BURGUNDY " = getProductColorHex "burgundy" ∧
    getProductColorHex "ultraviolet-mist" = JsValue.str "#6B46C1" ∧
    getProductColorHex "constructor" = JsValue.protoMember "constructor" :=
  ⟨(getProductColorHex_spec "  BURGUNDY " "burgundy" (by decide) (by decide)).1 (by decide),
   (getProductColorHex_spec "ultraviolet-mist" "x" (by decide) (by decide)).2.2.1
     (by decide) (by decide),
   (getProductColorHex_spec "constructor" "x" (by decide) (by decide)).2.2.2
     (by decide) (by decide)⟩
